import Mathlib

/-!
Shallow embedding of the conversational data-analysis assistant:
conversation memory (src/utils/memory.py), data loader
(src/utils/data_loader.py), planner (src/agents/planner.py) and
orchestrator (src/agents/orchestrator.py).  External collaborators —
the LLM structured-generation call, the pandas parsers, the executor —
are modelled as explicit outcome parameters of the embedded functions.
-/

/-- Values of the Python dicts carried around opaquely by the code under
study (a message's chart_data, a plan's filters) are modelled as string
key-value pairs; none of the code inspects them. -/
abbrev PyDict := List (String × String)

/-- The Message dataclass of src/utils/memory.py.  The wall-clock
timestamp field (datetime.now at construction) is outside the embedding;
no operation of the code reads it. -/
structure Message where
  role : String
  content : String
  execution_plan : Option String := none
  chart_data : Option PyDict := none
deriving Repr, DecidableEq

/-- The mutable state of a ConversationMemory instance
(src/utils/memory.py, __init__). -/
structure ConversationMemory where
  max_messages : Nat
  messages : List Message
  data_schema : Option String
  current_dataframe_info : Option String
deriving Repr, DecidableEq

/-- ConversationMemory(max_messages): empty log, unset caches. -/
def mkConversationMemory (max_messages : Nat) : ConversationMemory :=
  { max_messages := max_messages, messages := [], data_schema := none,
    current_dataframe_info := none }

/-- Python slice xs[-k:]: the whole list when k = 0, otherwise the last
k elements (all of xs when k is at least its length). -/
def pySliceLast (k : Nat) (xs : List α) : List α :=
  if k = 0 then xs else xs.drop (xs.length - k)

/-- add_message (src/utils/memory.py, lines 39-65): append the new
message, then keep only the last max_messages entries when the log has
grown past the bound. -/
def add_message (mem : ConversationMemory) (role content : String)
    (execution_plan : Option String) (chart_data : Option PyDict) :
    ConversationMemory :=
  let msgs := mem.messages ++ [⟨role, content, execution_plan, chart_data⟩]
  { mem with
    messages := if mem.max_messages < msgs.length
      then pySliceLast mem.max_messages msgs else msgs }

/-- get_context (src/utils/memory.py, lines 68-83): fixed sentinel on an
empty log, otherwise one role-labelled line per retained message joined
by newlines. -/
def get_context (mem : ConversationMemory) : String :=
  if mem.messages.isEmpty then "No previous conversation."
  else
    String.intercalate "\n"
      (mem.messages.map fun msg =>
        (if msg.role = "user" then "User" else "Assistant") ++ ": " ++ msg.content)

/-- set_data_schema (src/utils/memory.py): wholesale replace. -/
def set_data_schema (mem : ConversationMemory) (schema : String) :
    ConversationMemory :=
  { mem with data_schema := some schema }

/-- set_dataframe_info (src/utils/memory.py): wholesale replace. -/
def set_dataframe_info (mem : ConversationMemory) (info : String) :
    ConversationMemory :=
  { mem with current_dataframe_info := some info }

/-- clear (src/utils/memory.py): empties the log and unsets both caches. -/
def memory_clear (mem : ConversationMemory) : ConversationMemory :=
  { mem with messages := [], data_schema := none, current_dataframe_info := none }

/-- The arguments of one add_message call, for reasoning about call
sequences. -/
structure AddCall where
  role : String
  content : String
  execution_plan : Option String := none
  chart_data : Option PyDict := none
deriving Repr, DecidableEq

/-- The message an add_message call constructs. -/
def AddCall.msg (a : AddCall) : Message :=
  ⟨a.role, a.content, a.execution_plan, a.chart_data⟩

/-- Replay a sequence of add_message calls against a memory. -/
def foldAdds (mem : ConversationMemory) (calls : List AddCall) :
    ConversationMemory :=
  calls.foldl
    (fun m a => add_message m a.role a.content a.execution_plan a.chart_data)
    mem

theorem add_message_max_messages (mem : ConversationMemory)
    (r c : String) (ep : Option String) (cd : Option PyDict) :
    (add_message mem r c ep cd).max_messages = mem.max_messages := rfl

theorem foldAdds_cons (mem : ConversationMemory) (a : AddCall)
    (rest : List AddCall) :
    foldAdds mem (a :: rest) =
      foldAdds (add_message mem a.role a.content a.execution_plan a.chart_data)
        rest := rfl

/-- Dropping the head of the left list first does not change a drop that
reaches past it. -/
theorem drop_one_append_drop (ys new : List α) (hys : 1 ≤ ys.length) :
    (ys.drop 1 ++ new).drop new.length = (ys ++ new).drop (new.length + 1) := by
  rw [List.drop_append_eq_append_drop, List.drop_append_eq_append_drop,
    List.drop_drop]
  have hidx : new.length - (ys.drop 1).length = new.length + 1 - ys.length := by
    simp only [List.length_drop]
    omega
  rw [hidx, Nat.add_comm 1 new.length]

/-- Replaying calls against a memory whose bound is at least 1 and whose
log currently fits the bound yields exactly the bound-sized suffix of
"old log ++ new messages". -/
theorem foldAdds_messages_drop (K : Nat) (hK : 1 ≤ K)
    (calls : List AddCall) :
    ∀ mem : ConversationMemory, mem.max_messages = K →
      mem.messages.length ≤ K →
      (foldAdds mem calls).messages =
        (mem.messages ++ calls.map AddCall.msg).drop
          (mem.messages.length + calls.length - K) := by
  induction calls with
  | nil =>
    intro mem hmax hlen
    simp [foldAdds]
    rw [Nat.sub_eq_zero_of_le (by omega)]
    simp
  | cons a rest ih =>
    intro mem hmax hlen
    rw [foldAdds_cons]
    by_cases hcap : K < mem.messages.length + 1
    · -- the log was exactly full: the new append is truncated to its tail
      have hlenK : mem.messages.length = K := by omega
      have hmem' :
          (add_message mem a.role a.content a.execution_plan a.chart_data).messages
            = (mem.messages ++ [a.msg]).drop 1 := by
        simp only [add_message, pySliceLast, AddCall.msg]
        rw [if_pos (by simp; omega), if_neg (by omega)]
        congr 1
        simp [hmax]
        omega
      have hd1len :
          ((mem.messages ++ [a.msg]).drop 1).length = K := by
        simp
        omega
      rw [ih _ (by rw [add_message_max_messages, hmax]) (by rw [hmem', hd1len])]
      rw [hmem', hd1len]
      have hidx : K + rest.length - K = (rest.map AddCall.msg).length := by
        simp
      rw [hidx]
      have hys : mem.messages ++ (a :: rest).map AddCall.msg
          = (mem.messages ++ [a.msg]) ++ rest.map AddCall.msg := by
        simp
      rw [hys]
      have hidx2 : mem.messages.length + (a :: rest).length - K =
          (rest.map AddCall.msg).length + 1 := by
        simp
        omega
      rw [hidx2]
      exact drop_one_append_drop _ _ (by simp)
    · -- still under the bound: plain append
      have hmem' :
          (add_message mem a.role a.content a.execution_plan a.chart_data).messages
            = mem.messages ++ [a.msg] := by
        simp only [add_message, AddCall.msg]
        rw [if_neg (by simp; omega)]
      rw [ih _ (by rw [add_message_max_messages, hmax]) (by rw [hmem']; simp; omega)]
      rw [hmem']
      have hys : (mem.messages ++ [a.msg]) ++ rest.map AddCall.msg
          = mem.messages ++ (a :: rest).map AddCall.msg := by
        simp
      rw [hys]
      congr 1
      simp
      omega

/-- Replaying calls against a memory whose bound is 0 never evicts. -/
theorem foldAdds_messages_zero (calls : List AddCall) :
    ∀ mem : ConversationMemory, mem.max_messages = 0 →
      (foldAdds mem calls).messages = mem.messages ++ calls.map AddCall.msg := by
  induction calls with
  | nil => intro mem hmax; simp [foldAdds]
  | cons a rest ih =>
    intro mem hmax
    rw [foldAdds_cons]
    have hmem' :
        (add_message mem a.role a.content a.execution_plan a.chart_data).messages
          = mem.messages ++ [a.msg] := by
      simp [add_message, hmax, pySliceLast, AddCall.msg]
    rw [ih _ (by rw [add_message_max_messages, hmax]), hmem']
    simp

/-! ## DataLoader (src/utils/data_loader.py) -/

/-- MAX_FILE_SIZE_BYTES = 10 * 1024 * 1024. -/
def MAX_FILE_SIZE_BYTES : Nat := 10 * 1024 * 1024

/-- The characters after the last '.' of the list (the whole list when it
holds no '.'); acc accumulates the current segment reversed.  Models
file_name.rsplit with separator '.' keeping the last piece. -/
def lastSegAux : List Char → List Char → List Char
  | [], acc => acc.reverse
  | c :: cs, acc => if c = '.' then lastSegAux cs [] else lastSegAux cs (c :: acc)

/-- _get_extension (src/utils/data_loader.py, lines 19-25): "." plus the
lower-cased text after the last dot, or "" when the name has no dot. -/
def get_extension (file_name : String) : String :=
  if file_name.data.contains '.' then
    "." ++ String.mk ((lastSegAux file_name.data []).map Char.toLower)
  else ""

/-- validate_file (src/utils/data_loader.py, lines 28-46): size ceiling
first, then extension membership; no content inspected. -/
def validate_file (file_name : String) (file_size : Nat) : Bool × String :=
  if MAX_FILE_SIZE_BYTES < file_size then
    (false, "File size exceeds 10MB limit. Please upload a smaller file.")
  else if get_extension file_name = ".csv" ∨ get_extension file_name = ".xlsx"
      ∨ get_extension file_name = ".xls" then
    (true, "")
  else
    (false, "Unsupported file type. Please upload a CSV or XLSX file.")

/-- The tabular structure produced by the external pandas parsers.  Cells
are optional strings (none models a null); dtypes carries the
pandas-inferred dtype name of each column. -/
structure DataFrame where
  columns : List String
  dtypes : List String
  rows : List (List (Option String))
deriving Repr, DecidableEq

/-- pandas df.empty: true when either axis has length zero. -/
def DataFrame.isEmpty (df : DataFrame) : Bool :=
  df.rows.isEmpty || df.columns.isEmpty

/-- The exceptions of the pandas read calls, as distinguished by
load_file's except clauses. -/
inductive PandasExn where
  | emptyData
  | parserError (msg : String)
  | other (msg : String)
deriving Repr, DecidableEq

/-- The mutable state of a DataLoader instance (__init__). -/
structure DataLoaderState where
  current_df : Option DataFrame
  file_name : Option String
deriving Repr, DecidableEq

/-- DataLoader() constructor. -/
def mkDataLoader : DataLoaderState := ⟨none, none⟩

/-- load_file (src/utils/data_loader.py, lines 49-83).  The pandas
read_csv/read_excel round trip is external; its outcome (a dataframe or
a raised exception) is the readOutcome parameter, consulted only when
the extension selects a parser. -/
def load_file (dl : DataLoaderState) (readOutcome : Except PandasExn DataFrame)
    (file_name : String) :
    (Bool × String × Option DataFrame) × DataLoaderState :=
  if get_extension file_name = ".csv" ∨ get_extension file_name = ".xlsx"
      ∨ get_extension file_name = ".xls" then
    match readOutcome with
    | .ok df =>
      if df.isEmpty then ((false, "The uploaded file is empty.", none), dl)
      else
        ((true, "Successfully loaded " ++ toString df.rows.length ++ " rows and "
            ++ toString df.columns.length ++ " columns.", some df),
          { current_df := some df, file_name := some file_name })
    | .error .emptyData =>
        ((false, "The file is empty or has no valid data.", none), dl)
    | .error (.parserError m) =>
        ((false, "Error parsing file: " ++ m, none), dl)
    | .error (.other m) =>
        ((false, "Error loading file: " ++ m, none), dl)
  else ((false, "Unsupported file format.", none), dl)

/-- Column i of the dataframe, as the pandas column extraction df[col]. -/
def DataFrame.col (df : DataFrame) (i : Nat) : List (Option String) :=
  df.rows.map fun r => r.getD i none

/-- The schema text of one dataframe (src/utils/data_loader.py,
lines 86-118): per column its name, dtype, non-null count over total,
and up to 3 samples truncated to 30 characters. -/
def schema_text (df : DataFrame) : String :=
  String.intercalate "\n" ("COLUMNS AND DATA TYPES:" ::
    df.columns.enum.map fun p =>
      "  - " ++ p.2 ++ " (" ++ df.dtypes.getD p.1 "" ++ "): "
        ++ toString ((df.col p.1).filterMap id).length ++ "/"
        ++ toString df.rows.length ++ " non-null | Sample: ["
        ++ String.intercalate ", "
            (((df.col p.1).filterMap id).take 3 |>.map fun v => v.take 30)
        ++ "]")

/-- get_schema: explicit dataframe, else the loader's cached one, else a
fixed sentinel. -/
def get_schema (dl : DataLoaderState) (df? : Option DataFrame) : String :=
  match df? with
  | some df => schema_text df
  | none =>
    match dl.current_df with
    | some df => schema_text df
    | none => "No data loaded."

/-- The info text of one dataframe (src/utils/data_loader.py,
lines 121-143). -/
def info_text (df : DataFrame) : String :=
  String.intercalate "\n"
    ["Total Rows: " ++ toString df.rows.length,
     "Total Columns: " ++ toString df.columns.length,
     "Column Names: " ++ String.intercalate ", " df.columns]

/-- get_dataframe_info: explicit dataframe, else the cached one, else the
fixed sentinel. -/
def get_dataframe_info (dl : DataLoaderState) (df? : Option DataFrame) : String :=
  match df? with
  | some df => info_text df
  | none =>
    match dl.current_df with
    | some df => info_text df
    | none => "No data loaded."


/-! ## Planner (src/agents/planner.py) -/

/-- The ExecutionPlan dataclass (src/agents/planner.py, lines 14-23). -/
structure ExecutionPlan where
  goal : String
  steps : List String
  needs_visualization : Bool
  chart_type : Option String
  columns_to_use : List String
  aggregation : Option String
  filters : Option PyDict
  raw_response : String
deriving Repr, DecidableEq

/-- The parsed JSON object of a generation response, as consulted by
create_plan's plan_data.get calls.  An Option field set to none models a
missing key; for chart_type, aggregation and filters a JSON null and a
missing key are indistinguishable to dict.get and share the none. -/
structure PlanData where
  goal? : Option String := none
  steps? : Option (List String) := none
  needs_visualization? : Option Bool := none
  chart_type : Option String := none
  columns_to_use? : Option (List String) := none
  aggregation : Option String := none
  filters : Option PyDict := none
deriving Repr, DecidableEq

/-- The outcome of the external structured-generation round trip plus the
json.loads parse: the verbatim response text with its parsed object, or
the stringified exception raised at the call or parse stage. -/
abbrev GenOutcome := Except String (String × PlanData)

/-- The prompt assembled by create_plan (src/agents/planner.py,
lines 153-174); a falsy (absent or empty) conversation context omits the
history block. -/
def planner_prompt (question data_schema : String)
    (conversation_context : Option String) : String :=
  String.intercalate "\n"
    (["DATA SCHEMA:", data_schema, ""]
      ++ (match conversation_context with
          | some c => if c = "" then [] else ["CONVERSATION HISTORY:", c, ""]
          | none => [])
      ++ ["USER QUESTION:", question, "", "Create an execution plan as a JSON object:"])

/-- create_plan (src/agents/planner.py, lines 136-220): build the plan
from the parsed response with per-field dict.get defaults, or degrade to
the fallback plan on any raised failure. -/
def create_plan (question data_schema : String)
    (conversation_context : Option String) (outcome : GenOutcome) :
    ExecutionPlan :=
  match outcome with
  | .ok (raw_text, d) =>
    { goal := d.goal?.getD "Analyze the data"
      steps := d.steps?.getD ["Analyze the data"]
      needs_visualization := d.needs_visualization?.getD false
      chart_type := d.chart_type
      columns_to_use := d.columns_to_use?.getD []
      aggregation := d.aggregation
      filters := d.filters
      raw_response := raw_text }
  | .error e =>
    { goal := "Answer: " ++ question
      steps := ["Analyze the data to answer the question"]
      needs_visualization := false
      chart_type := none
      columns_to_use := []
      aggregation := none
      filters := none
      raw_response := e }

/-- format_plan_display (src/agents/planner.py, lines 223-254); Python
truthiness makes an empty chart_type render as "auto" and an empty
columns list omit its line. -/
def format_plan_display (plan : ExecutionPlan) : String :=
  String.intercalate "\n"
    (["**Goal:** " ++ plan.goal, "", "**Execution Steps:**"]
      ++ plan.steps.enum.map (fun p => "   " ++ toString (p.1 + 1) ++ ". " ++ p.2)
      ++ (if plan.needs_visualization then
            ["", "**Visualization:** "
              ++ (match plan.chart_type with
                  | some c => if c = "" then "auto" else c
                  | none => "auto") ++ " chart"]
          else [])
      ++ (if plan.columns_to_use.isEmpty then []
          else ["", "**Columns:** " ++ String.intercalate ", " plan.columns_to_use]))

/-! ## Orchestrator (src/agents/orchestrator.py) -/

/-- The outcome of the external executor call: (answer, result_df,
image_path), or the stringified exception it raised. -/
abbrev ExecOutcome := Except String (String × Option DataFrame × Option String)

/-- The state an AgentOrchestrator owns: its memory, its data loader, the
active table, the last plan, and the dataframe handed to the executor
collaborator (executor.smart_df). -/
structure OrchState where
  memory : ConversationMemory
  data_loader : DataLoaderState
  current_df : Option DataFrame
  last_plan : Option ExecutionPlan
  executor_df : Option DataFrame
deriving Repr, DecidableEq

/-- AgentOrchestrator() constructor (src/agents/orchestrator.py,
lines 13-20): fresh loader, memory bound of 5, no table. -/
def mkOrchestrator : OrchState :=
  { memory := mkConversationMemory 5, data_loader := mkDataLoader,
    current_df := none, last_plan := none, executor_df := none }

/-- load_data (src/agents/orchestrator.py, lines 22-62): validate, parse,
and on success replace the table, reset the message log, refresh the
schema/info caches and hand the table to the executor. -/
def load_data (st : OrchState) (file_name : String) (file_size : Nat)
    (readOutcome : Except PandasExn DataFrame) : (Bool × String) × OrchState :=
  let v := validate_file file_name file_size
  if v.1 then
    let r := load_file st.data_loader readOutcome file_name
    let st1 : OrchState := { st with data_loader := r.2 }
    match r.1.1, r.1.2.2 with
    | true, some df =>
      let schema := get_schema st1.data_loader (some df)
      let info := get_dataframe_info st1.data_loader (some df)
      let mem1 := { st1.memory with messages := [] }
      let mem2 := set_data_schema (set_dataframe_info mem1 info) schema
      ((true, r.1.2.1),
        { st1 with current_df := some df, memory := mem2, executor_df := some df })
    | _, _ => ((r.1.1, r.1.2.1), st1)
  else ((false, v.2), st)

/-- The result dictionary process_query initialises and returns
(src/agents/orchestrator.py, lines 81-88). -/
structure QueryResult where
  success : Bool
  answer : String
  plan_display : String
  result_df : Option DataFrame
  image_path : Option String
  error : Option String
deriving Repr, DecidableEq

/-- process_query (src/agents/orchestrator.py, lines 65-133): fail fast
without a table; otherwise record the user turn, plan (create_plan
absorbs its own failures, so the generation outcome is a parameter),
execute, and either record the assistant turn on success or catch the
executor's exception into a uniform failure result. -/
def process_query (st : OrchState) (question : String) (gen : GenOutcome)
    (exec : ExecOutcome) : QueryResult × OrchState :=
  match st.current_df with
  | none =>
    ({ success := false, answer := "", plan_display := "", result_df := none,
       image_path := none, error := some "Please upload a data file first." }, st)
  | some df =>
    let mem1 := add_message st.memory "user" question none none
    let schema := get_schema st.data_loader (some df)
    let context := get_context mem1
    let plan := create_plan question schema (some context) gen
    let st1 : OrchState := { st with memory := mem1, last_plan := some plan }
    let disp := format_plan_display plan
    match exec with
    | .error e =>
      ({ success := false, answer := "Error processing query: " ++ e,
         plan_display := disp, result_df := none, image_path := none,
         error := some ("Error processing query: " ++ e) }, st1)
    | .ok (answer, result_df, image_path) =>
      ({ success := true, answer := answer, plan_display := disp,
         result_df := result_df, image_path := image_path, error := none },
        { st1 with memory := add_message mem1 "assistant" answer none none })

/-! ## Helper lemmas -/

theorem dot_append_inj {t u : String} (h : "." ++ t = "." ++ u) : t = u := by
  cases t with
  | mk td =>
    cases u with
    | mk ud =>
      have hd : '.' :: td = '.' :: ud := congrArg String.data h
      injection hd with _ h2
      rw [h2]

theorem dot_eq_lit (x tail : String) : ("." ++ x = "." ++ tail) ↔ x = tail :=
  ⟨dot_append_inj, fun h => by rw [h]⟩

theorem append_ne_empty_left (a b : String) (ha : a ≠ "") : a ++ b ≠ "" := by
  cases a with
  | mk ad =>
    cases b with
    | mk bd =>
      intro h
      have hd : ad ++ bd = [] := congrArg String.data h
      have had : ad = [] := (List.append_eq_nil.mp hd).1
      apply ha
      rw [had]

theorem getLast?_drop_concat (n : Nat) (l : List α) (a : α)
    (hn : n ≤ l.length) : ((l ++ [a]).drop n).getLast? = some a := by
  rw [List.drop_append_eq_append_drop, Nat.sub_eq_zero_of_le hn,
    List.drop_zero]
  exact List.getLast?_concat _

theorem add_message_getLast (mem : ConversationMemory) (r c : String)
    (ep : Option String) (cd : Option PyDict) :
    (add_message mem r c ep cd).messages.getLast? = some ⟨r, c, ep, cd⟩ := by
  simp only [add_message, pySliceLast]
  split
  · split
    · exact List.getLast?_concat _
    · next hk =>
      exact getLast?_drop_concat _ _ _
        (by simp only [List.length_append, List.length_cons, List.length_nil]; omega)
  · exact List.getLast?_concat _

/-! ## The claim-side reading of the extension rule (C8) -/

/-- The final dot-segment of a file name: the text after the last dot,
when the name has a dot at all. -/
def finalDotSegment (name : String) : Option String :=
  if name.data.contains '.' then some (String.mk (lastSegAux name.data []))
  else none

/-- Python str.lower, character-wise (the extensions involved are ASCII). -/
def strLower (s : String) : String := String.mk (s.data.map Char.toLower)

/-- The claim's acceptance condition on the name: it has a final
dot-segment which, compared case-insensitively, is csv, xlsx or xls. -/
def specExtensionOk (name : String) : Prop :=
  ∃ seg, finalDotSegment name = some seg ∧
    (strLower seg = "csv" ∨ strLower seg = "xlsx" ∨ strLower seg = "xls")

theorem get_extension_mem_iff (name : String) :
    (get_extension name = ".csv" ∨ get_extension name = ".xlsx"
      ∨ get_extension name = ".xls") ↔ specExtensionOk name := by
  unfold get_extension specExtensionOk finalDotSegment strLower
  by_cases hdot : name.data.contains '.'
  · simp only [hdot, if_true, Option.some.injEq]
    constructor
    · rintro (h | h | h)
      · exact ⟨_, rfl, Or.inl (dot_append_inj (h.trans (by decide)))⟩
      · exact ⟨_, rfl, Or.inr (Or.inl (dot_append_inj (h.trans (by decide))))⟩
      · exact ⟨_, rfl, Or.inr (Or.inr (dot_append_inj (h.trans (by decide))))⟩
    · rintro ⟨seg, hseg, h | h | h⟩
      · left
        rw [← hseg] at h
        rw [show (".csv" : String) = "." ++ "csv" by decide, dot_eq_lit]
        exact h
      · right; left
        rw [← hseg] at h
        rw [show (".xlsx" : String) = "." ++ "xlsx" by decide, dot_eq_lit]
        exact h
      · right; right
        rw [← hseg] at h
        rw [show (".xls" : String) = "." ++ "xls" by decide, dot_eq_lit]
        exact h
  · simp only [hdot, if_false]
    constructor
    · rintro (h | h | h) <;> simp_all
    · rintro ⟨seg, hseg, _⟩
      simp at hseg

/-! ## Claim theorems -/

/-- Claim C8: validate_file rejects exactly when the size exceeds the
fixed 10 MB ceiling or the final dot-segment of the name, compared
case-insensitively, is not one of csv, xlsx, xls; in particular an 11 MB
file is rejected regardless of extension, a 1 KB "data.txt" is rejected
and a 1 KB "data.csv" is accepted.  No content is inspected:
validate_file consumes only the name and the size. -/
theorem validate_file_size_and_extension :
    (∀ name size, (validate_file name size).1 = false ↔
      (MAX_FILE_SIZE_BYTES < size ∨ ¬ specExtensionOk name)) ∧
    (∀ name, (validate_file name (11 * 1024 * 1024)).1 = false) ∧
    (validate_file "data.txt" 1024).1 = false ∧
    (validate_file "data.csv" 1024).1 = true := by
  have hmain : ∀ name size, (validate_file name size).1 = false ↔
      (MAX_FILE_SIZE_BYTES < size ∨ ¬ specExtensionOk name) := by
    intro name size
    have hiff := get_extension_mem_iff name
    unfold validate_file
    split
    · next hsz => simp [hsz]
    · next hsz =>
      split
      · next hext => simp [hsz, hiff.mp hext]
      · next hext =>
        simp [hsz]
        exact fun hs => hext (hiff.mpr hs)
  refine ⟨hmain, ?_, by decide, by decide⟩
  intro name
  exact (hmain name _).mpr (Or.inl (by unfold MAX_FILE_SIZE_BYTES; omega))

/-- Claim C9: get_context returns the fixed sentinel on an empty message
list, and otherwise one line per retained message in insertion order,
each line the role label ("User: " for user messages, "Assistant: "
otherwise) followed by the content; one user plus one assistant message
give exactly the two expected lines in insertion order. -/
theorem get_context_rendering :
    (∀ mem : ConversationMemory, mem.messages = [] →
      get_context mem = "No previous conversation.") ∧
    (∀ mem : ConversationMemory, mem.messages ≠ [] →
      get_context mem = String.intercalate "\n" (mem.messages.map fun m =>
        (if m.role = "user" then "User: " else "Assistant: ") ++ m.content)) ∧
    get_context { mkConversationMemory 5 with
        messages := [⟨"user", "hi", none, none⟩, ⟨"assistant", "hello", none, none⟩] }
      = "User: hi\nAssistant: hello" := by
  refine ⟨?_, ?_, by decide⟩
  · intro mem h
    unfold get_context
    rw [if_pos (by simp [h])]
  · intro mem h
    unfold get_context
    rw [if_neg (by simp [h])]
    have hfg : (fun (msg : Message) =>
        (if msg.role = "user" then "User" else "Assistant") ++ ": " ++ msg.content)
        = fun (m : Message) =>
          (if m.role = "user" then "User: " else "Assistant: ") ++ m.content := by
      funext m
      by_cases hr : m.role = "user"
      · rw [if_pos hr, if_pos hr]
        exact congrArg (fun s => s ++ m.content) (by decide)
      · rw [if_neg hr, if_neg hr]
        exact congrArg (fun s => s ++ m.content) (by decide)
    rw [hfg]

/-- Witness for claim C9 at concrete memories: the empty memory yields
the sentinel and a non-empty one yields the labelled lines. -/
theorem get_context_rendering_witness :
    get_context (mkConversationMemory 5) = "No previous conversation." ∧
    get_context { mkConversationMemory 5 with messages := [⟨"user", "q", none, none⟩] }
      = String.intercalate "\n"
          ([⟨"user", "q", none, none⟩].map fun (m : Message) =>
            (if m.role = "user" then "User: " else "Assistant: ") ++ m.content) :=
  ⟨get_context_rendering.1 (mkConversationMemory 5) rfl,
   get_context_rendering.2.1 _ (by decide)⟩

/-- Claim C10: with max_messages = 0 the truncation slice keeps the whole
list, so add_message never evicts: after any call sequence the log holds
every message added, in insertion order. -/
theorem memory_capacity_zero_keeps_all (calls : List AddCall) :
    (foldAdds (mkConversationMemory 0) calls).messages = calls.map AddCall.msg ∧
    (foldAdds (mkConversationMemory 0) calls).messages.length = calls.length := by
  have h := foldAdds_messages_zero calls (mkConversationMemory 0) rfl
  rw [show (mkConversationMemory 0).messages = [] from rfl, List.nil_append] at h
  exact ⟨h, by rw [h]; simp⟩

/-- Claim C2 fails as stated at capacity max_messages = 0: one
add_message call already exceeds the capacity, yet the log retains the
message, so its length is not bounded by max_messages. -/
theorem memory_capacity_zero_violates_bound :
    ¬ ((foldAdds (mkConversationMemory 0) [⟨"user", "hi", none, none⟩]).messages.length
        ≤ (mkConversationMemory 0).max_messages) := by decide

/-- Claim C2 (amended: under the precondition max_messages ≥ 1, which
the default 5 satisfies): after any sequence of add_message calls the
log has at most max_messages entries and equals the most recent entries
in insertion order; once the sequence reaches the capacity the length is
exactly max_messages. -/
theorem memory_fifo_window (K : Nat) (hK : 1 ≤ K) (calls : List AddCall) :
    (foldAdds (mkConversationMemory K) calls).messages
        = (calls.map AddCall.msg).drop (calls.length - K) ∧
    (foldAdds (mkConversationMemory K) calls).messages.length ≤ K ∧
    (K ≤ calls.length →
      (foldAdds (mkConversationMemory K) calls).messages.length = K) := by
  have h := foldAdds_messages_drop K hK calls (mkConversationMemory K) rfl
    (by simp [mkConversationMemory])
  rw [show (mkConversationMemory K).messages = [] from rfl] at h
  simp only [List.nil_append, List.length_nil, Nat.zero_add] at h
  refine ⟨h, ?_, ?_⟩
  · rw [h]
    simp only [List.length_drop, List.length_map]
    omega
  · intro hle
    rw [h]
    simp only [List.length_drop, List.length_map]
    omega

/-- Witness for claim C2 at capacity 1 with two calls: only the most
recent message is retained. -/
theorem memory_fifo_window_witness :
    1 ≤ 1 ∧
    (foldAdds (mkConversationMemory 1)
        [⟨"user", "a", none, none⟩, ⟨"user", "b", none, none⟩]).messages
      = [⟨"user", "b", none, none⟩] :=
  ⟨by decide,
   ((memory_fifo_window 1 (by decide)
      [⟨"user", "a", none, none⟩, ⟨"user", "b", none, none⟩]).1).trans (by decide)⟩

/-- Claim C3: a failure raised at the generation or parse stage degrades
create_plan to the fallback plan: goal "Answer: " + question, exactly
one generic step, no visualization, null chart type, empty columns, null
aggregation, null filters, and raw_response the stringified failure. -/
theorem create_plan_fallback_on_failure (question data_schema : String)
    (ctx : Option String) (e : String) :
    create_plan question data_schema ctx (.error e) =
      { goal := "Answer: " ++ question,
        steps := ["Analyze the data to answer the question"],
        needs_visualization := false, chart_type := none,
        columns_to_use := [], aggregation := none, filters := none,
        raw_response := e } := rfl

/-- Claim C1 fails as stated: a JSON-object response that explicitly
supplies an empty goal string and an empty steps array is passed through
unchanged, because the dict.get defaults apply only to missing keys. -/
theorem create_plan_empty_fields_cex :
    (create_plan "q" "schema" none
        (.ok ("raw", { goal? := some "", steps? := some [] }))).goal = "" ∧
    (create_plan "q" "schema" none
        (.ok ("raw", { goal? := some "", steps? := some [] }))).steps = [] :=
  ⟨rfl, rfl⟩

/-- Claim C1 (amended): the returned plan has a non-empty goal and
non-empty steps whenever the generation call fails or the response omits
the corresponding field; a goal or steps value the response supplies
explicitly — even an empty one — is returned verbatim. -/
theorem create_plan_goal_steps_defaults (question data_schema : String)
    (ctx : Option String) (outcome : GenOutcome) :
    (∀ e, outcome = .error e →
      (create_plan question data_schema ctx outcome).goal ≠ "" ∧
      (create_plan question data_schema ctx outcome).steps ≠ []) ∧
    (∀ raw d, outcome = .ok (raw, d) →
      (d.goal? = none →
        (create_plan question data_schema ctx outcome).goal = "Analyze the data") ∧
      (d.steps? = none →
        (create_plan question data_schema ctx outcome).steps = ["Analyze the data"]) ∧
      (∀ g, d.goal? = some g →
        (create_plan question data_schema ctx outcome).goal = g) ∧
      (∀ ss, d.steps? = some ss →
        (create_plan question data_schema ctx outcome).steps = ss)) := by
  constructor
  · rintro e rfl
    constructor
    · show "Answer: " ++ question ≠ ""
      exact append_ne_empty_left _ _ (by decide)
    · show ["Analyze the data to answer the question"] ≠ []
      simp
  · rintro raw d rfl
    refine ⟨?_, ?_, ?_, ?_⟩
    · intro hg
      simp [create_plan, hg]
    · intro hs
      simp [create_plan, hs]
    · intro g hg
      simp [create_plan, hg]
    · intro ss hs
      simp [create_plan, hs]

/-- Witness for claim C1 at a failed generation and at a response with
an explicit goal. -/
theorem create_plan_goal_steps_defaults_witness :
    (create_plan "q" "s" none (.error "boom")).goal ≠ "" ∧
    (create_plan "q" "s" none
        (.ok ("raw", ({ goal? := some "g" } : PlanData)))).goal = "g" :=
  ⟨((create_plan_goal_steps_defaults "q" "s" none (.error "boom")).1 "boom" rfl).1,
   (((create_plan_goal_steps_defaults "q" "s" none
        (.ok ("raw", ({ goal? := some "g" } : PlanData)))).2
      "raw" ({ goal? := some "g" } : PlanData) rfl).2.2.1 "g" rfl)⟩

/-- Claim C4: with no table loaded, process_query returns success=false
with the fixed upload-first error and leaves the whole orchestrator
state — the memory log included — unchanged. -/
theorem process_query_no_data_fixed_error (st : OrchState) (question : String)
    (gen : GenOutcome) (executorOutcome : ExecOutcome)
    (h : st.current_df = none) :
    process_query st question gen executorOutcome =
      ({ success := false, answer := "", plan_display := "", result_df := none,
         image_path := none, error := some "Please upload a data file first." },
        st) := by
  unfold process_query
  rw [h]

/-- Witness for claim C4 at the fresh orchestrator state. -/
theorem process_query_no_data_fixed_error_witness :
    mkOrchestrator.current_df = none ∧
    process_query mkOrchestrator "q" (.error "g") (.error "x") =
      ({ success := false, answer := "", plan_display := "", result_df := none,
         image_path := none, error := some "Please upload a data file first." },
        mkOrchestrator) :=
  ⟨rfl, process_query_no_data_fixed_error mkOrchestrator "q" (.error "g")
    (.error "x") rfl⟩

/-- Claim C5: with a table loaded, process_query appends exactly one
user message holding the question before the planning stage — the
context handed to the planner is computed from the post-append memory —
and the message is retained: on executor failure the final memory is
exactly the post-append memory, whose last entry is the user message,
and on success only the assistant reply is appended after it. -/
theorem process_query_records_user_turn (st : OrchState) (question : String)
    (gen : GenOutcome) (executorOutcome : ExecOutcome) (df : DataFrame)
    (h : st.current_df = some df) :
    (∀ e, executorOutcome = .error e →
      (process_query st question gen executorOutcome).2.memory
        = add_message st.memory "user" question none none) ∧
    (∀ a rdf ip, executorOutcome = .ok (a, rdf, ip) →
      (process_query st question gen executorOutcome).2.memory
        = add_message (add_message st.memory "user" question none none)
            "assistant" a none none) ∧
    (add_message st.memory "user" question none none).messages.getLast?
      = some ⟨"user", question, none, none⟩ := by
  refine ⟨?_, ?_, add_message_getLast st.memory "user" question none none⟩
  · rintro e rfl
    unfold process_query
    rw [h]
  · rintro a rdf ip rfl
    unfold process_query
    rw [h]

/-- A one-cell dataframe used by concrete witnesses. -/
def sampleDF : DataFrame :=
  { columns := ["a"], dtypes := ["int64"], rows := [[some "1"]] }

/-- An orchestrator state with sampleDF loaded, used by witnesses. -/
def loadedState : OrchState := { mkOrchestrator with current_df := some sampleDF }

/-- Witness for claim C5: on a loaded state with a failing executor the
final memory is exactly the post-append memory. -/
theorem process_query_records_user_turn_witness :
    loadedState.current_df = some sampleDF ∧
    (process_query loadedState "q" (.error "g") (.error "boom")).2.memory
      = add_message loadedState.memory "user" "q" none none :=
  ⟨rfl, (process_query_records_user_turn loadedState "q" (.error "g")
    (.error "boom") sampleDF rfl).1 "boom" rfl⟩

/-- Claim C6: process_query (total in the embedding: it returns a result
for every outcome of its collaborators) contains failures: every
non-success result carries a non-empty error, and when the executor
raises, success is false, error and answer both hold the wrapped
message, and neither the result table nor the chart path is populated. -/
theorem process_query_failure_containment (st : OrchState) (question : String)
    (gen : GenOutcome) (executorOutcome : ExecOutcome) :
    ((process_query st question gen executorOutcome).1.success = false →
      ∃ m, (process_query st question gen executorOutcome).1.error = some m ∧
        m ≠ "") ∧
    (∀ e df, executorOutcome = .error e → st.current_df = some df →
      (process_query st question gen executorOutcome).1.success = false ∧
      (process_query st question gen executorOutcome).1.error
        = some ("Error processing query: " ++ e) ∧
      (process_query st question gen executorOutcome).1.answer
        = "Error processing query: " ++ e ∧
      (process_query st question gen executorOutcome).1.result_df = none ∧
      (process_query st question gen executorOutcome).1.image_path = none) := by
  constructor
  · intro hfail
    cases hdf : st.current_df with
    | none =>
      refine ⟨"Please upload a data file first.", ?_, by decide⟩
      unfold process_query
      rw [hdf]
    | some df =>
      cases hex : executorOutcome with
      | error e =>
        refine ⟨"Error processing query: " ++ e, ?_,
          append_ne_empty_left _ _ (by decide)⟩
        unfold process_query
        rw [hdf]
      | ok t =>
        exfalso
        obtain ⟨a, rdf, ip⟩ := t
        unfold process_query at hfail
        rw [hdf, hex] at hfail
        simp at hfail
  · rintro e df rfl hdf
    unfold process_query
    rw [hdf]
    exact ⟨rfl, rfl, rfl, rfl, rfl⟩

/-- Witness for claim C6 at a loaded state with a failing executor. -/
theorem process_query_failure_containment_witness :
    loadedState.current_df = some sampleDF ∧
    (process_query loadedState "q" (.error "g") (.error "boom")).1.error
      = some ("Error processing query: " ++ "boom") :=
  ⟨rfl, ((process_query_failure_containment loadedState "q" (.error "g")
    (.error "boom")).2 "boom" sampleDF rfl rfl).2.1⟩

theorem validate_file_fail_msg (name : String) (size : Nat)
    (h : ¬ (validate_file name size).1 = true) :
    (validate_file name size).2 ≠ "" := by
  unfold validate_file at h ⊢
  split
  · exact (by decide)
  · next hsz =>
    split
    · next hext =>
      exact absurd (by rw [if_neg hsz, if_pos hext]) h
    · exact (by decide)

theorem load_file_fail_state (dl : DataLoaderState)
    (out : Except PandasExn DataFrame) (name : String)
    (h : (load_file dl out name).1.1 = false) :
    (load_file dl out name).2 = dl ∧ (load_file dl out name).1.2.1 ≠ "" := by
  unfold load_file at h ⊢
  split at h
  · next hext =>
    rw [if_pos hext]
    cases out with
    | ok df =>
      dsimp only at h ⊢
      by_cases hemp : df.isEmpty = true
      · rw [if_pos hemp]
        refine ⟨rfl, ?_⟩
        show "The uploaded file is empty." ≠ ""
        decide
      · rw [if_neg hemp] at h
        simp at h
    | error ex =>
      cases ex with
      | emptyData =>
        refine ⟨rfl, ?_⟩
        show "The file is empty or has no valid data." ≠ ""
        decide
      | parserError m =>
        refine ⟨rfl, ?_⟩
        exact append_ne_empty_left _ _ (by decide)
      | other m =>
        refine ⟨rfl, ?_⟩
        exact append_ne_empty_left _ _ (by decide)
  · next hext =>
    rw [if_neg hext]
    refine ⟨rfl, ?_⟩
    show "Unsupported file format." ≠ ""
    decide

/-- Claim C7: every failing load attempt — validation failure, a parse
exception, parsed content pandas reports empty, or an unsupported
extension — returns ok=false with a non-empty descriptive message and
leaves the whole orchestrator state (the previously loaded table, the
memory log, the cached schema/info strings) exactly as before. -/
theorem load_data_failure_preserves_state (st : OrchState) (name : String)
    (size : Nat) (out : Except PandasExn DataFrame)
    (h : (load_data st name size out).1.1 = false) :
    (load_data st name size out).2 = st ∧
    (load_data st name size out).1.2 ≠ "" := by
  unfold load_data at h ⊢
  dsimp only at h ⊢
  split at h
  · next hval =>
    rw [if_pos hval]
    revert h
    generalize hlf : load_file st.data_loader out name = r
    obtain ⟨⟨succ, msg, df?⟩, dl'⟩ := r
    intro h
    cases succ
    · dsimp only at h ⊢
      have hfail := load_file_fail_state st.data_loader out name (by rw [hlf])
      rw [hlf] at hfail
      refine ⟨?_, hfail.2⟩
      have hdl : dl' = st.data_loader := hfail.1
      rw [hdl]
    · cases df? with
      | some df =>
        dsimp only at h
        simp at h
      | none =>
        dsimp only at h
        simp at h
  · next hval =>
    rw [if_neg hval]
    exact ⟨rfl, validate_file_fail_msg name size hval⟩

/-- Witness for claim C7: loading "data.txt" fails validation and leaves
the fresh orchestrator state unchanged. -/
theorem load_data_failure_preserves_state_witness :
    (load_data mkOrchestrator "data.txt" 1024 (.error .emptyData)).1.1 = false ∧
    (load_data mkOrchestrator "data.txt" 1024 (.error .emptyData)).2
      = mkOrchestrator :=
  ⟨by decide, (load_data_failure_preserves_state mkOrchestrator "data.txt" 1024
    (.error .emptyData) (by decide)).1⟩
